import Mathlib

/-!
Verification of the payment & licensing engine of fakturly-be.

The definitions below are a shallow embedding of the TypeScript sources:
  * `src/services/payment.ts`  (class `PaymentService`)
  * `src/routes/payment.ts`    (the `POST /create` handler)
  * `src/middleware/errorHandler.ts` (class `AppError`)
The Prisma database is modelled as lists of rows; each stateful operation
is a pure function threading the database (or a `World` that additionally
carries the Midtrans gateway collaborator) and returning the same
`Except`-style result the code produces by returning or throwing.
JavaScript numbers are modelled as rationals.
-/

deriving instance DecidableEq for Except

namespace Fakturly

/-- Prisma enum `PaymentStatus` (values PENDING, SUCCESS, FAILED). -/
inductive PaymentStatus where
  | PENDING
  | SUCCESS
  | FAILED
deriving DecidableEq

/-- Prisma enum `DiscountType` (values PERCENTAGE, FIXED). -/
inductive DiscountType where
  | PERCENTAGE
  | FIXED
deriving DecidableEq

/-- Row of the `User` table (the fields the payment engine reads/writes). -/
structure User where
  id : String
  name : String
  email : String
  isActive : Bool
deriving DecidableEq

/-- Row of the `Payment` table (the fields the payment engine reads/writes). -/
structure Payment where
  id : String
  userId : String
  amount : ℚ
  status : PaymentStatus
  promoCode : Option String
  midtransId : Option String
deriving DecidableEq

/-- Row of the `PromoCode` table. -/
structure PromoCode where
  code : String
  description : String
  discountType : DiscountType
  discountValue : ℚ
  maxUses : Int
  currentUses : Int
  isActive : Bool
  startDate : Int
  endDate : Int
deriving DecidableEq

/-- The Prisma database state used by the payment engine. -/
structure DB where
  users : List User
  payments : List Payment
  promos : List PromoCode
deriving DecidableEq

/-- Errors thrown by the engine.  `appError s m` is `AppError(s, m)` from
`src/middleware/errorHandler.ts`; `badRequest m` is `BadRequestError(m)` from
`src/utils/errors` (an `AppError` with HTTP status 400 — the class body is not
in the sources, but every use site passes only a message, so the error is
determined by its message). -/
inductive SvcError where
  | badRequest (message : String)
  | appError (statusCode : Nat) (message : String)
deriving DecidableEq

/-- Error `BadRequestError("Kode promo tidak valid atau sudah kadaluarsa")`
thrown at `payment.ts:59` (unknown / inactive / out-of-window promo). -/
def invalidPromoError : SvcError :=
  .badRequest "Kode promo tidak valid atau sudah kadaluarsa"

/-- Error `BadRequestError("Kuota promo sudah habis")` thrown at `payment.ts:70`
(promo quota exhausted). -/
def promoExhaustedError : SvcError :=
  .badRequest "Kuota promo sudah habis"

/-- Error `AppError(400, "User already has an active payment")` thrown at
`routes/payment.ts:40`. -/
def duplicatePaymentError : SvcError :=
  .appError 400 "User already has an active payment"

/-- Error `BadRequestError("Payment not found")` thrown at `payment.ts:146`. -/
def paymentNotFoundError : SvcError :=
  .badRequest "Payment not found"

/-- Result record of `getPricingInfo` (interface `PricingInfo`). -/
structure PricingInfo where
  originalPrice : ℚ
  discountedPrice : ℚ
  promoCode : Option String
  promoDescription : Option String
deriving DecidableEq

/-- The inbound Midtrans webhook payload.  The handler's TypeScript interface
`MidtransNotification` declares only the first three fields; the remaining
fields (`status_code`, `gross_amount`, `signature_key`, per spec §6) are
present on the JSON body the route passes through but are never read by
`handleNotification`. -/
structure MidtransNotification where
  transaction_status : String
  order_id : String
  fraud_status : Option String
  status_code : String
  gross_amount : String
  signature_key : String
deriving DecidableEq

/-- Query `prisma.payment.findUnique({ where: { id: orderId } })`. -/
def findPaymentById (db : DB) (orderId : String) : Option Payment :=
  db.payments.find? (fun p => decide (p.id = orderId))

/-- Query `prisma.payment.findFirst({ where: { userId, status: "SUCCESS" } })`. -/
def findSuccessPaymentByUser (db : DB) (userId : String) : Option Payment :=
  db.payments.find? (fun p => decide (p.userId = userId ∧ p.status = .SUCCESS))

/-- Query `prisma.payment.count({ where: { promoCode: code, status: "SUCCESS" } })`. -/
def countSuccessWithPromo (db : DB) (code : String) : Nat :=
  db.payments.countP (fun p => decide (p.promoCode = some code ∧ p.status = .SUCCESS))

/-- Query `prisma.promoCode.findUnique` with the `getPricingInfo` filter: exact code
match, `isActive: true`, `startDate <= now`, `endDate >= now`
(`payment.ts:49-56`). -/
def findActivePromoInWindow (db : DB) (now : Int) (code : String) : Option PromoCode :=
  db.promos.find? (fun p =>
    decide (p.code = code ∧ p.isActive = true ∧ p.startDate ≤ now ∧ now ≤ p.endDate))

/-- Query `prisma.promoCode.findUnique` with the `getRemainingPromoSlots` filter:
exact code match and `isActive: true` (`payment.ts:197-202`). -/
def findActivePromo (db : DB) (code : String) : Option PromoCode :=
  db.promos.find? (fun p => decide (p.code = code ∧ p.isActive = true))

/-- Update `prisma.payment.update({ where: { id: orderId }, data: { status } })`. -/
def setPaymentStatus (db : DB) (orderId : String) (st : PaymentStatus) : DB :=
  { db with payments :=
      db.payments.map (fun p => if p.id = orderId then { p with status := st } else p) }

/-- Update `prisma.user.update({ where: { id: userId }, data: { isActive: true } })`. -/
def activateUser (db : DB) (userId : String) : DB :=
  { db with users :=
      db.users.map (fun u => if u.id = userId then { u with isActive := true } else u) }

/-- JavaScript `String.prototype.trim`: strip leading and trailing
whitespace.  (`promoCode?.trim()` is truthy exactly when this is not the
empty string.) -/
def jsTrim (s : String) : String :=
  String.mk (((s.data.dropWhile Char.isWhitespace).reverse.dropWhile
    Char.isWhitespace).reverse)

/-- Embeds `PaymentService.getPricingInfo(promoCode?)` (`payment.ts:41-94`), with the
constructor field `LICENSE_PRICE` and the current time passed explicitly.
Pure read: returns a `PricingInfo` or throws. -/
def getPricingInfo (L : ℚ) (now : Int) (db : DB) (promoCode : Option String) :
    Except SvcError PricingInfo :=
  match promoCode with
  | none => .ok ⟨L, L, none, none⟩
  | some c =>
    if jsTrim c = "" then
      .ok ⟨L, L, none, none⟩
    else
      match findActivePromoInWindow db now c with
      | none => .error invalidPromoError
      | some promo =>
        let promoUsage : Nat := countSuccessWithPromo db promo.code
        if promo.maxUses ≤ (promoUsage : Int) then
          .error promoExhaustedError
        else
          let raw : ℚ :=
            if promo.discountType = .PERCENTAGE then
              L * (1 - promo.discountValue / 100)
            else
              L - promo.discountValue
          let discountedPrice : ℚ := max 0 raw
          let remainingSlots : Int := promo.maxUses - (promoUsage : Int)
          let promoDescription : String :=
            if promo.discountValue = 100 then
              "Selamat! Anda mendapatkan akses GRATIS (tersisa " ++
                toString remainingSlots ++ " slot)"
            else
              promo.description ++ " (tersisa " ++ toString remainingSlots ++ " slot)"
          .ok ⟨L, discountedPrice, some promo.code, some promoDescription⟩

/-- Embeds `PaymentService.calculateFinalPrice(promoCode?)` (`payment.ts:96-104`). -/
def calculateFinalPrice (L : ℚ) (now : Int) (db : DB) (promoCode : Option String) :
    Except SvcError ℚ :=
  match promoCode with
  | none => .ok L
  | some c =>
    if jsTrim c = "" then
      .ok L
    else
      (getPricingInfo L now db promoCode).map (fun info => info.discountedPrice)

/-- The status mapping of `handleNotification` (`payment.ts:149-167`):
JavaScript `==` on the gateway's strings, `fraud_status` possibly absent. -/
def mapStatus (transactionStatus : String) (fraudStatus : Option String) : PaymentStatus :=
  if transactionStatus = "capture" then
    if fraudStatus = some "challenge" then .PENDING
    else if fraudStatus = some "accept" then .SUCCESS
    else .FAILED
  else if transactionStatus = "settlement" then .SUCCESS
  else if transactionStatus = "cancel" ∨ transactionStatus = "deny" ∨
      transactionStatus = "expire" then .FAILED
  else if transactionStatus = "pending" then .PENDING
  else .FAILED

/-- Embeds `PaymentService.handleNotification(notification)` (`payment.ts:135-183`).
Looks up the payment by `order_id` (throws `Payment not found` if absent),
maps the claimed gateway status, persists it unconditionally, and — whenever
the mapped status is SUCCESS — activates the owning user.  Returns the row
`prisma.payment.update` yields, paired with the database after the call. -/
def handleNotification (db : DB) (n : MidtransNotification) :
    Except SvcError Payment × DB :=
  match findPaymentById db n.order_id with
  | none => (.error paymentNotFoundError, db)
  | some payment =>
    let paymentStatus := mapStatus n.transaction_status n.fraud_status
    let updatedPayment : Payment := { payment with status := paymentStatus }
    let db1 := setPaymentStatus db n.order_id paymentStatus
    let db2 := if paymentStatus = .SUCCESS then activateUser db1 payment.userId else db1
    (.ok updatedPayment, db2)

/-- Embeds `PaymentService.getPaymentStatus(userId)` (`payment.ts:185-194`). -/
def getPaymentStatus (db : DB) (userId : String) : Bool :=
  (findSuccessPaymentByUser db userId).isSome

/-- Result record of `getRemainingPromoSlots`. -/
structure PromoSlots where
  remainingSlots : Int
  totalSlots : Int
deriving DecidableEq

/-- Embeds `PaymentService.getRemainingPromoSlots(code)` (`payment.ts:196-220`):
find the active promo (throws if unknown/inactive), count SUCCESS payments
referencing the code, and clamp `maxUses - usedSlots` at zero. -/
def getRemainingPromoSlots (db : DB) (code : String) : Except SvcError PromoSlots :=
  match findActivePromo db code with
  | none => .error (.badRequest "Kode promo tidak ditemukan")
  | some promo =>
    let usedSlots : Nat := countSuccessWithPromo db code
    .ok ⟨max 0 (promo.maxUses - (usedSlots : Int)), promo.maxUses⟩

/-- A `snap.createTransaction` request (`payment.ts:116-130`): order id,
gross amount, and the customer details read from the user row. -/
structure GwTxn where
  order_id : String
  gross_amount : ℚ
  first_name : String
  email : String
deriving DecidableEq

/-- A `snap.createTransaction` response (see `types/midtrans.d.ts`). -/
structure GwResp where
  token : String
  redirect_url : String
deriving DecidableEq

/-- The world a request runs against: the database plus the Midtrans gateway
collaborator.  `gwStatus` is the gateway's own transaction-status endpoint
(`CoreApi.transaction.status` in `types/midtrans.d.ts` — declared but never
called by the code); `gwCreate` answers checkout-session requests; `gwCalls`
logs every `snap.createTransaction` request issued. -/
structure World where
  db : DB
  gwStatus : String → String
  gwCreate : GwTxn → GwResp
  gwCalls : List GwTxn

/-- Embeds `PaymentService.createMidtransPayment(params)` (`payment.ts:106-133`):
look up the user (throws `User not found` if absent) and request a checkout
session from the gateway, which is recorded in the call log. -/
def createMidtransPayment (w : World) (orderId : String) (amount : ℚ) (userId : String) :
    Except SvcError GwResp × World :=
  match w.db.users.find? (fun u => decide (u.id = userId)) with
  | none => (.error (.badRequest "User not found"), w)
  | some user =>
    let txn : GwTxn := ⟨orderId, amount, user.name, user.email⟩
    (.ok (w.gwCreate txn), { w with gwCalls := w.gwCalls ++ [txn] })

/-- The JSON body of `POST /create` (`routes/payment.ts:63-70, 87-94`):
the created payment row and the redirect target handed to the caller. -/
structure CreateResp where
  payment : Payment
  redirectUrl : String
deriving DecidableEq

/-- The `POST /create` route handler (`routes/payment.ts:26-98`), with the
fresh Prisma id for the new row and the current time passed explicitly.
Flow: reject if the user already has a SUCCESS payment; resolve the final
price; insert the payment (SUCCESS when the price is 0, else PENDING, storing
`promoCode || null`); on a free payment activate the user and answer
`/dashboard` with no gateway interaction; otherwise request a gateway
checkout session, record the `midtransId`, and answer its redirect URL. -/
def createPayment (L : ℚ) (now : Int) (newId : String) (w : World)
    (userId : String) (promoCode : Option String) :
    Except SvcError CreateResp × World :=
  match findSuccessPaymentByUser w.db userId with
  | some _ => (.error duplicatePaymentError, w)
  | none =>
    match calculateFinalPrice L now w.db promoCode with
    | .error e => (.error e, w)
    | .ok finalPrice =>
      let storedPromo : Option String :=
        match promoCode with
        | none => none
        | some s => if s = "" then none else some s
      let payment : Payment :=
        ⟨newId, userId, finalPrice,
          if finalPrice = 0 then .SUCCESS else .PENDING, storedPromo, none⟩
      let w1 : World := { w with db := { w.db with payments := w.db.payments ++ [payment] } }
      if finalPrice = 0 then
        let w2 : World := { w1 with db := activateUser w1.db userId }
        (.ok ⟨payment, "/dashboard"⟩, w2)
      else
        match createMidtransPayment w1 payment.id finalPrice userId with
        | (.error e, w2) => (.error e, w2)
        | (.ok resp, w2) =>
          let stamped : List Payment := w2.db.payments.map (fun p =>
            if p.id = payment.id then { p with midtransId := some payment.id } else p)
          let w3 : World := { w2 with db := { w2.db with payments := stamped } }
          (.ok ⟨payment, resp.redirect_url⟩, w3)

/-- The `POST /notification` route (`routes/payment.ts:116-123`): the body is
handed to `handleNotification`, which touches only the database — the gateway
components of the world are neither read nor written. -/
def handleNotificationW (w : World) (n : MidtransNotification) :
    Except SvcError Payment × World :=
  let r := handleNotification w.db n
  (r.1, { w with db := r.2 })

/-- The status-mapping table exactly as the spec states it (§4.3 step 4):
capture+challenge → PENDING, capture+accept → SUCCESS, capture+other →
FAILED, settlement → SUCCESS, pending → PENDING, deny/cancel/expire/failure
→ FAILED, any other gateway status → FAILED. -/
def specStatusTable (ts : String) (fs : Option String) : PaymentStatus :=
  if ts = "capture" then
    if fs = some "challenge" then .PENDING
    else if fs = some "accept" then .SUCCESS
    else .FAILED
  else if ts = "settlement" then .SUCCESS
  else if ts = "pending" then .PENDING
  else if ts = "deny" ∨ ts = "cancel" ∨ ts = "expire" ∨ ts = "failure" then .FAILED
  else .FAILED

/-! ### Concrete fixtures for witnesses and counterexamples -/

/-- A registered, not-yet-activated user. -/
def aliceInactive : User := ⟨"u1", "Alice", "alice@mail.test", false⟩

/-- The same user once activated. -/
def aliceActive : User := ⟨"u1", "Alice", "alice@mail.test", true⟩

/-- A pending full-price payment owned by `u1`. -/
def payPending1 : Payment := ⟨"order1", "u1", 500000, .PENDING, none, none⟩

/-- Database with one inactive user and one pending payment. -/
def db1 : DB := ⟨[aliceInactive], [payPending1], []⟩

/-- Database `db1` after a successful settlement of `order1`. -/
def db1after : DB := ⟨[aliceActive], [⟨"order1", "u1", 500000, .SUCCESS, none, none⟩], []⟩

/-- A settlement webhook for `order1` carrying signature `sigA`. -/
def nSigA : MidtransNotification := ⟨"settlement", "order1", none, "200", "500000.00", "sigA"⟩

/-- The same settlement webhook carrying the different signature `sigB`. -/
def nSigB : MidtransNotification := ⟨"settlement", "order1", none, "200", "500000.00", "sigB"⟩

/-- A capture/challenge webhook for `order1`. -/
def nCapCh : MidtransNotification := ⟨"capture", "order1", some "challenge", "200", "500000.00", "sigC"⟩

/-- A fixed gateway answer for checkout-session requests. -/
def gwRespFixed : GwResp := ⟨"tok-1", "https://app.sandbox.example/redirect"⟩

/-- World over `db1` whose gateway-status endpoint reports `expire` for every
order — contradicting the settlement webhooks above. -/
def w5 : World := ⟨db1, fun _ => "expire", fun _ => gwRespFixed, []⟩

/-- Same database, but a gateway that agrees with the settlement webhook. -/
def w5same : World := ⟨db1, fun _ => "settlement", fun _ => gwRespFixed, []⟩

/-- An active promo with ten slots and a zero usage counter. -/
def promoTen : PromoCode := ⟨"PROMO", "Diskon spesial", .FIXED, 100000, 10, 0, true, 0, 1000⟩

/-- A pending payment that carries promo `PROMO`. -/
def payWithPromo : Payment := ⟨"order2", "u1", 400000, .PENDING, some "PROMO", none⟩

/-- Database with an inactive user, a pending promo payment and `PROMO`. -/
def db2 : DB := ⟨[aliceInactive], [payWithPromo], [promoTen]⟩

/-- A valid settlement webhook for `order2`. -/
def nSettle2 : MidtransNotification := ⟨"settlement", "order2", none, "200", "400000.00", "sig2"⟩

/-- A payment already in the terminal SUCCESS state. -/
def paySuccess3 : Payment := ⟨"order3", "u1", 500000, .SUCCESS, none, none⟩

/-- Database with an activated user and a SUCCESS payment. -/
def db3 : DB := ⟨[aliceActive], [paySuccess3], []⟩

/-- A cancel webhook for the already-successful `order3`. -/
def nCancel3 : MidtransNotification := ⟨"cancel", "order3", none, "202", "500000.00", "sig3"⟩

/-- World over `db3`, for exercising `createPayment`. -/
def w7 : World := ⟨db3, fun _ => "pending", fun _ => gwRespFixed, []⟩

/-- An active 100%-percentage promo with slots remaining. -/
def promoFree : PromoCode := ⟨"FREE100", "Akses gratis", .PERCENTAGE, 100, 5, 0, true, 0, 1000⟩

/-- Database holding only `aliceInactive` and the free promo. -/
def dbFree : DB := ⟨[aliceInactive], [], [promoFree]⟩

/-- World over `dbFree`. -/
def wFree : World := ⟨dbFree, fun _ => "pending", fun _ => gwRespFixed, []⟩

/-- An active fixed-discount promo with ten slots, one already used. -/
def promoHalf : PromoCode := ⟨"HALF", "Setengah harga", .FIXED, 250000, 10, 0, true, 0, 1000⟩

/-- Database with one SUCCESS payment referencing `HALF`. -/
def dbHalf : DB := ⟨[aliceInactive], [⟨"p1", "u2", 250000, .SUCCESS, some "HALF", none⟩], [promoHalf]⟩

/-- An active promo whose single slot is already taken. -/
def promoSold : PromoCode := ⟨"SOLD", "Habis", .FIXED, 100000, 1, 1, true, 0, 1000⟩

/-- Database with one SUCCESS payment referencing `SOLD`. -/
def dbSold : DB := ⟨[], [⟨"p2", "u3", 400000, .SUCCESS, some "SOLD", none⟩], [promoSold]⟩

/-- An active promo referenced by more SUCCESS payments than it has slots. -/
def promoOver : PromoCode := ⟨"OVER", "Kelebihan", .FIXED, 100000, 2, 3, true, 0, 1000⟩

/-- Database with three SUCCESS payments referencing the two-slot `OVER`. -/
def dbOver : DB := ⟨[],
  [⟨"p3", "u4", 400000, .SUCCESS, some "OVER", none⟩,
   ⟨"p4", "u5", 400000, .SUCCESS, some "OVER", none⟩,
   ⟨"p5", "u6", 400000, .SUCCESS, some "OVER", none⟩], [promoOver]⟩

/-! ### General lemmas about the embedding -/

lemma mapStatus_eq_specStatusTable (ts : String) (fs : Option String) :
    mapStatus ts fs = specStatusTable ts fs := by
  unfold mapStatus specStatusTable
  split_ifs <;> simp_all

lemma find_map_setStatus (l : List Payment) (oid : String) (st : PaymentStatus) :
    (l.map (fun p => if p.id = oid then { p with status := st } else p)).find?
        (fun p => decide (p.id = oid)) =
      (l.find? (fun p => decide (p.id = oid))).map
        (fun p => { p with status := st }) := by
  induction l with
  | nil => rfl
  | cons a l ih =>
    by_cases h : a.id = oid
    · simp [List.find?_cons, h]
    · simp [List.find?_cons, h, ih]

lemma setPaymentStatus_promos (db : DB) (oid : String) (st : PaymentStatus) :
    (setPaymentStatus db oid st).promos = db.promos := rfl

lemma activateUser_promos (db : DB) (uid : String) :
    (activateUser db uid).promos = db.promos := rfl

lemma activateUser_payments (db : DB) (uid : String) :
    (activateUser db uid).payments = db.payments := rfl

/-- The function `handleNotification` never reads or writes the `PromoCode` table. -/
lemma handleNotification_promos (db : DB) (n : MidtransNotification) :
    (handleNotification db n).2.promos = db.promos := by
  unfold handleNotification
  cases h : findPaymentById db n.order_id with
  | none => rfl
  | some p =>
    simp only []
    split <;> rfl

/-- When the payment exists, `handleNotification` returns the row updated to
the mapped status. -/
lemma handleNotification_result (db : DB) (n : MidtransNotification) (p : Payment)
    (h : findPaymentById db n.order_id = some p) :
    (handleNotification db n).1 =
      .ok { p with status := mapStatus n.transaction_status n.fraud_status } := by
  unfold handleNotification
  rw [h]

/-- After `handleNotification`, every payment row carrying the notified order
id holds the mapped status — whatever status it held before. -/
lemma handleNotification_rows (db : DB) (n : MidtransNotification) (p : Payment)
    (h : findPaymentById db n.order_id = some p) :
    ∀ q ∈ (handleNotification db n).2.payments, q.id = n.order_id →
      q.status = mapStatus n.transaction_status n.fraud_status := by
  intro q hq hid
  unfold handleNotification at hq
  rw [h] at hq
  simp only [] at hq
  have hq2 : q ∈ (setPaymentStatus db n.order_id
      (mapStatus n.transaction_status n.fraud_status)).payments := by
    by_cases hs : mapStatus n.transaction_status n.fraud_status = .SUCCESS
    · rw [hs]
      simpa [hs, activateUser_payments] using hq
    · simpa [hs, activateUser_payments] using hq
  unfold setPaymentStatus at hq2
  simp only [List.mem_map] at hq2
  obtain ⟨r, _, hr⟩ := hq2
  by_cases hrid : r.id = n.order_id
  · rw [if_pos hrid] at hr
    rw [← hr]
  · rw [if_neg hrid] at hr
    rw [← hr] at hid
    exact absurd hid hrid

/-- After a SUCCESS-mapped notification, every user row with the owner's id
has `isActive = true`. -/
lemma handleNotification_user (db : DB) (n : MidtransNotification) (p : Payment)
    (h : findPaymentById db n.order_id = some p)
    (hs : mapStatus n.transaction_status n.fraud_status = .SUCCESS) :
    ∀ u ∈ (handleNotification db n).2.users, u.id = p.userId → u.isActive = true := by
  intro u hu hid
  unfold handleNotification at hu
  rw [h] at hu
  simp only [hs, if_pos] at hu
  unfold activateUser at hu
  simp only [List.mem_map] at hu
  obtain ⟨v, _, hv⟩ := hu
  by_cases hvid : v.id = p.userId
  · rw [if_pos hvid] at hv
    rw [← hv]
  · rw [if_neg hvid] at hv
    rw [← hv] at hid
    exact absurd hid hvid

/-- Looking the order up again after `handleNotification` finds the same row
with the mapped status. -/
lemma handleNotification_find_after (db : DB) (n : MidtransNotification) (p : Payment)
    (h : findPaymentById db n.order_id = some p) :
    findPaymentById (handleNotification db n).2 n.order_id =
      some { p with status := mapStatus n.transaction_status n.fraud_status } := by
  unfold handleNotification
  rw [h]
  simp only []
  have base : findPaymentById (setPaymentStatus db n.order_id
      (mapStatus n.transaction_status n.fraud_status)) n.order_id =
      some { p with status := mapStatus n.transaction_status n.fraud_status } := by
    unfold findPaymentById setPaymentStatus at *
    simp only []
    rw [find_map_setStatus, h]
    rfl
  by_cases hs : mapStatus n.transaction_status n.fraud_status = .SUCCESS
  · rw [hs] at base ⊢
    simp only [if_true, eq_self_iff_true]
    unfold findPaymentById at *
    rw [activateUser_payments]
    exact base
  · rw [if_neg hs]
    exact base

/-- After `activateUser`, every user row with the given id is active. -/
lemma activateUser_active (db : DB) (uid : String) :
    ∀ u ∈ (activateUser db uid).users, u.id = uid → u.isActive = true := by
  intro u hu hid
  unfold activateUser at hu
  simp only [List.mem_map] at hu
  obtain ⟨v, _, hv⟩ := hu
  by_cases hvid : v.id = uid
  · rw [if_pos hvid] at hv
    rw [← hv]
  · rw [if_neg hvid] at hv
    rw [← hv] at hid
    exact absurd hid hvid

/-! ### Claim theorems -/

/-- Claim C1, counterexample: the settlement webhooks `nSigA` and `nSigB`
differ only in `signature_key`, so whatever value a SHA-512 recomputation
over (orderId, statusCode, grossAmount, secret) yields, at least one of the
two carries a mismatched signature; yet both are accepted without any error
and both mutate the Payment row (PENDING to SUCCESS) and the User row
(activation) — refuting the claim that a mismatched signature fails with
`InvalidSignatureError` and leaves every row unchanged. -/
theorem signature_mismatch_not_rejected_cex :
    nSigA.signature_key ≠ nSigB.signature_key ∧
    (handleNotification db1 nSigA).1 =
      .ok ⟨"order1", "u1", 500000, .SUCCESS, none, none⟩ ∧
    (handleNotification db1 nSigA).2 = db1after ∧
    (handleNotification db1 nSigB).1 =
      .ok ⟨"order1", "u1", 500000, .SUCCESS, none, none⟩ ∧
    (handleNotification db1 nSigB).2 = db1after ∧
    db1after ≠ db1 := by decide

/-- Claim C1, amended: `handleNotification` performs no signature
verification — its result and database effect are independent of the
supplied `signature_key` (no `InvalidSignatureError` exists in the code), so
a tampered-signature notification is processed exactly like a genuine one. -/
theorem handleNotification_ignores_signature (db : DB) (n : MidtransNotification)
    (s1 s2 : String) :
    handleNotification db { n with signature_key := s1 } =
      handleNotification db { n with signature_key := s2 } := rfl

/-- Claim C5, counterexample: in world `w5` the gateway's own
transaction-status endpoint reports `expire` for `order1` while the webhook
claims `settlement`; `handleNotification` never queries that endpoint, raises
no `StatusMismatchError`, and still moves the Payment to SUCCESS and touches
the User row. -/
theorem gateway_mismatch_not_rejected_cex :
    w5.gwStatus nSigA.order_id = "expire" ∧
    nSigA.transaction_status = "settlement" ∧
    ("expire" : String) ≠ "settlement" ∧
    (handleNotificationW w5 nSigA).1 =
      .ok ⟨"order1", "u1", 500000, .SUCCESS, none, none⟩ ∧
    (handleNotificationW w5 nSigA).2.db = db1after ∧
    db1after ≠ db1 :=
  ⟨rfl, rfl, by decide, by decide, by decide, by decide⟩

/-- Claim C5, amended: `handleNotification` performs no out-of-band
confirmation: it never consults the gateway's transaction-status endpoint,
so its outcome and its database effect depend only on the local database and
the notification body, whatever the gateway would report. -/
theorem handleNotification_ignores_gateway (w w2 : World) (n : MidtransNotification)
    (h : w.db = w2.db) :
    (handleNotificationW w n).1 = (handleNotificationW w2 n).1 ∧
    (handleNotificationW w n).2.db = (handleNotificationW w2 n).2.db := by
  unfold handleNotificationW
  rw [h]
  exact ⟨rfl, rfl⟩

/-- Witness for the amended C5 theorem: two worlds sharing `db1`, one whose
gateway reports `expire` and one reporting `settlement`, produce the same
outcome and the same database. -/
theorem handleNotification_ignores_gateway_witness :
    w5.db = w5same.db ∧
    ((handleNotificationW w5 nSigA).1 = (handleNotificationW w5same nSigA).1 ∧
     (handleNotificationW w5 nSigA).2.db = (handleNotificationW w5same nSigA).2.db) :=
  ⟨rfl, handleNotification_ignores_gateway w5 w5same nSigA rfl⟩

/-- Claim C3, counterexample: `order3` is already SUCCESS, yet a later
`cancel` notification moves it to FAILED — SUCCESS is not terminal. -/
theorem success_not_terminal_cex :
    findPaymentById db3 "order3" = some paySuccess3 ∧
    paySuccess3.status = .SUCCESS ∧
    nCancel3.order_id = "order3" ∧
    (handleNotification db3 nCancel3).1 = .ok { paySuccess3 with status := .FAILED } ∧
    findPaymentById (handleNotification db3 nCancel3).2 "order3" =
      some { paySuccess3 with status := .FAILED } := by decide

/-- Claim C3, amended: no status is terminal — `handleNotification`
unconditionally overwrites the found payment's status with the mapped status,
whatever the prior status (SUCCESS and FAILED included), and re-runs the
user-activation side effect on every SUCCESS-mapped delivery. -/
theorem notification_overwrites_status (db : DB) (n : MidtransNotification) (p : Payment)
    (h : findPaymentById db n.order_id = some p) :
    (handleNotification db n).1 =
      .ok { p with status := mapStatus n.transaction_status n.fraud_status } ∧
    findPaymentById (handleNotification db n).2 n.order_id =
      some { p with status := mapStatus n.transaction_status n.fraud_status } ∧
    (mapStatus n.transaction_status n.fraud_status = .SUCCESS →
      ∀ u ∈ (handleNotification db n).2.users, u.id = p.userId → u.isActive = true) :=
  ⟨handleNotification_result db n p h, handleNotification_find_after db n p h,
   fun hs => handleNotification_user db n p h hs⟩

/-- Witness for the amended C3 theorem at the SUCCESS payment `order3` hit by
a `cancel` notification. -/
theorem notification_overwrites_status_witness :
    findPaymentById db3 nCancel3.order_id = some paySuccess3 ∧
    ((handleNotification db3 nCancel3).1 =
      .ok { paySuccess3 with
        status := mapStatus nCancel3.transaction_status nCancel3.fraud_status } ∧
    findPaymentById (handleNotification db3 nCancel3).2 nCancel3.order_id =
      some { paySuccess3 with
        status := mapStatus nCancel3.transaction_status nCancel3.fraud_status } ∧
    (mapStatus nCancel3.transaction_status nCancel3.fraud_status = .SUCCESS →
      ∀ u ∈ (handleNotification db3 nCancel3).2.users,
        u.id = paySuccess3.userId → u.isActive = true)) :=
  ⟨by decide, notification_overwrites_status db3 nCancel3 paySuccess3 (by decide)⟩

/-- Claim C4: for every notification whose payment exists locally, the
resulting Payment status — both the returned row and every stored row with
that order id — is exactly the one the spec's mapping table
(`specStatusTable`) assigns to the notified gateway/fraud status pair. -/
theorem notification_follows_spec_table (db : DB) (n : MidtransNotification) (p : Payment)
    (h : findPaymentById db n.order_id = some p) :
    (handleNotification db n).1 =
      .ok { p with status := specStatusTable n.transaction_status n.fraud_status } ∧
    ∀ q ∈ (handleNotification db n).2.payments, q.id = n.order_id →
      q.status = specStatusTable n.transaction_status n.fraud_status := by
  rw [← mapStatus_eq_specStatusTable]
  exact ⟨handleNotification_result db n p h, handleNotification_rows db n p h⟩

/-- Witness for the C4 theorem: a capture/challenge notification for the
pending `order1` resolves through the table (to PENDING). -/
theorem notification_follows_spec_table_witness :
    findPaymentById db1 nCapCh.order_id = some payPending1 ∧
    ((handleNotification db1 nCapCh).1 =
      .ok { payPending1 with
        status := specStatusTable nCapCh.transaction_status nCapCh.fraud_status } ∧
    ∀ q ∈ (handleNotification db1 nCapCh).2.payments, q.id = nCapCh.order_id →
      q.status = specStatusTable nCapCh.transaction_status nCapCh.fraud_status) :=
  ⟨by decide, notification_follows_spec_table db1 nCapCh payPending1 (by decide)⟩

/-- Claim C2, counterexample: a first valid settlement for the pending
promo-carrying `order2` moves it to SUCCESS, but the promo table — and with
it `currentUses` — is left unchanged: the usage counter is incremented zero
times, not once. -/
theorem settlement_does_not_increment_promo_cex :
    findPaymentById db2 nSettle2.order_id = some payWithPromo ∧
    payWithPromo.status = .PENDING ∧
    payWithPromo.promoCode = some "PROMO" ∧
    promoTen.currentUses = 0 ∧
    (handleNotification db2 nSettle2).1 = .ok { payWithPromo with status := .SUCCESS } ∧
    (handleNotification db2 nSettle2).2.promos = [promoTen] := by decide

/-- Claim C2, amended: when `handleNotification` maps a notification to
SUCCESS for an existing payment, it sets the owning user's `isActive` to true
on every such delivery (not only the first) and never modifies any promo row,
so `currentUses` is incremented zero times rather than once; replaying the
same notification leaves the payment at SUCCESS with the promo table still
equal to its original state. -/
theorem settlement_success_effects (db : DB) (n : MidtransNotification) (p : Payment)
    (h : findPaymentById db n.order_id = some p)
    (hs : mapStatus n.transaction_status n.fraud_status = .SUCCESS) :
    (handleNotification db n).2.promos = db.promos ∧
    (∀ u ∈ (handleNotification db n).2.users, u.id = p.userId → u.isActive = true) ∧
    (∀ q ∈ (handleNotification db n).2.payments, q.id = n.order_id →
      q.status = .SUCCESS) ∧
    (handleNotification (handleNotification db n).2 n).2.promos = db.promos ∧
    (∀ q ∈ (handleNotification (handleNotification db n).2 n).2.payments,
      q.id = n.order_id → q.status = .SUCCESS) := by
  have h2 := handleNotification_find_after db n p h
  refine ⟨handleNotification_promos db n, handleNotification_user db n p h hs, ?_, ?_, ?_⟩
  · intro q hq hid
    rw [← hs]
    exact handleNotification_rows db n p h q hq hid
  · rw [handleNotification_promos, handleNotification_promos]
  · intro q hq hid
    rw [← hs]
    exact handleNotification_rows _ n _ h2 q hq hid

/-- Witness for the amended C2 theorem at the settlement of `order2`. -/
theorem settlement_success_effects_witness :
    findPaymentById db2 nSettle2.order_id = some payWithPromo ∧
    mapStatus nSettle2.transaction_status nSettle2.fraud_status = .SUCCESS ∧
    ((handleNotification db2 nSettle2).2.promos = db2.promos ∧
    (∀ u ∈ (handleNotification db2 nSettle2).2.users,
      u.id = payWithPromo.userId → u.isActive = true) ∧
    (∀ q ∈ (handleNotification db2 nSettle2).2.payments, q.id = nSettle2.order_id →
      q.status = .SUCCESS) ∧
    (handleNotification (handleNotification db2 nSettle2).2 nSettle2).2.promos = db2.promos ∧
    (∀ q ∈ (handleNotification (handleNotification db2 nSettle2).2 nSettle2).2.payments,
      q.id = nSettle2.order_id → q.status = .SUCCESS)) :=
  ⟨by decide, by decide,
   settlement_success_effects db2 nSettle2 payWithPromo (by decide) (by decide)⟩

/-- Claim C6: creating a payment with a valid 100%-percentage promo that has
a slot remaining, for a user without an existing SUCCESS payment, yields a
SUCCESS payment of amount 0, activates the user, answers the immediate
`/dashboard` redirect, and issues no gateway call. -/
theorem free_promo_checkout (L : ℚ) (now : Int) (newId : String) (w : World)
    (userId c : String) (promo : PromoCode)
    (hdup : findSuccessPaymentByUser w.db userId = none)
    (hc : jsTrim c ≠ "")
    (hfind : findActivePromoInWindow w.db now c = some promo)
    (htype : promo.discountType = .PERCENTAGE)
    (hval : promo.discountValue = 100)
    (hslots : (countSuccessWithPromo w.db promo.code : Int) < promo.maxUses) :
    ∃ w3 : World,
      createPayment L now newId w userId (some c) =
        (.ok ⟨⟨newId, userId, 0, .SUCCESS, some c, none⟩, "/dashboard"⟩, w3) ∧
      w3.gwCalls = w.gwCalls ∧
      (⟨newId, userId, 0, .SUCCESS, some c, none⟩ : Payment) ∈ w3.db.payments ∧
      ∀ u ∈ w3.db.users, u.id = userId → u.isActive = true := by
  have hne : c ≠ "" := by
    intro e
    rw [e] at hc
    exact absurd rfl hc
  have hcalc : calculateFinalPrice L now w.db (some c) = .ok 0 := by
    unfold calculateFinalPrice getPricingInfo
    simp only [if_neg hc, hfind]
    rw [if_neg (not_le.mpr hslots)]
    simp only [htype, if_pos, hval, Except.map]
    norm_num
  let dbApp : DB := { w.db with payments :=
    w.db.payments ++ [⟨newId, userId, 0, .SUCCESS, some c, none⟩] }
  refine ⟨{ w with db := activateUser dbApp userId }, ?_, rfl, ?_, ?_⟩
  · unfold createPayment
    rw [hdup, hcalc]
    simp only [eq_self_iff_true, if_true, if_neg hne, dbApp]
  · rw [activateUser_payments]
    simp [dbApp]
  · exact activateUser_active _ userId

/-- Witness for the C6 theorem: the 100%-percentage promo `FREE100` with all
five slots free, for the fresh user `u1` in `wFree`. -/
theorem free_promo_checkout_witness :
    findSuccessPaymentByUser wFree.db "u1" = none ∧
    jsTrim "FREE100" ≠ "" ∧
    findActivePromoInWindow wFree.db 10 "FREE100" = some promoFree ∧
    promoFree.discountType = .PERCENTAGE ∧
    promoFree.discountValue = 100 ∧
    (countSuccessWithPromo wFree.db promoFree.code : Int) < promoFree.maxUses ∧
    ∃ w3 : World,
      createPayment 500000 10 "pay1" wFree "u1" (some "FREE100") =
        (.ok ⟨⟨"pay1", "u1", 0, .SUCCESS, some "FREE100", none⟩, "/dashboard"⟩, w3) ∧
      w3.gwCalls = wFree.gwCalls ∧
      (⟨"pay1", "u1", 0, .SUCCESS, some "FREE100", none⟩ : Payment) ∈ w3.db.payments ∧
      ∀ u ∈ w3.db.users, u.id = "u1" → u.isActive = true :=
  ⟨by decide, by decide, by decide, rfl, rfl, by decide,
   free_promo_checkout 500000 10 "pay1" wFree "u1" "FREE100" promoFree
     (by decide) (by decide) (by decide) rfl rfl (by decide)⟩

/-- Claim C7: when the user already holds a SUCCESS payment, `createPayment`
fails with the duplicate-payment error and returns the world untouched — no
new Payment row, no other state change, no gateway call. -/
theorem duplicate_payment_rejected (L : ℚ) (now : Int) (newId : String) (w : World)
    (userId : String) (promoCode : Option String) (p : Payment)
    (hmem : p ∈ w.db.payments) (huser : p.userId = userId) (hst : p.status = .SUCCESS) :
    createPayment L now newId w userId promoCode = (.error duplicatePaymentError, w) := by
  have hsome : ∃ q, findSuccessPaymentByUser w.db userId = some q := by
    cases hfs : findSuccessPaymentByUser w.db userId with
    | some q => exact ⟨q, rfl⟩
    | none =>
      exfalso
      unfold findSuccessPaymentByUser at hfs
      rw [List.find?_eq_none] at hfs
      exact hfs p hmem (by simp [huser, hst])
  obtain ⟨q, hq⟩ := hsome
  unfold createPayment
  rw [hq]

/-- Witness for the C7 theorem: `u1` already owns the SUCCESS payment
`order3` in `w7`, so a fresh checkout is refused and `w7` is unchanged. -/
theorem duplicate_payment_rejected_witness :
    paySuccess3 ∈ w7.db.payments ∧ paySuccess3.userId = "u1" ∧
    paySuccess3.status = .SUCCESS ∧
    createPayment 500000 0 "pay9" w7 "u1" none = (.error duplicatePaymentError, w7) :=
  ⟨by decide, rfl, rfl,
   duplicate_payment_rejected 500000 0 "pay9" w7 "u1" none paySuccess3
     (by decide) rfl rfl⟩

/-- Claim C8: for an active, in-window promo with a slot remaining, the
resolved pricing is `originalPrice = BASE_PRICE` and `discountedPrice =
max 0 (BASE_PRICE * (1 - v/100))` for a PERCENTAGE discount of value `v`,
respectively `max 0 (BASE_PRICE - v)` for a FIXED discount. -/
theorem pricing_discount_formula (L : ℚ) (now : Int) (db : DB) (c : String)
    (promo : PromoCode)
    (hc : jsTrim c ≠ "")
    (hfind : findActivePromoInWindow db now c = some promo)
    (hslots : (countSuccessWithPromo db promo.code : Int) < promo.maxUses) :
    ∃ info : PricingInfo,
      getPricingInfo L now db (some c) = .ok info ∧
      info.originalPrice = L ∧
      (promo.discountType = .PERCENTAGE →
        info.discountedPrice = max 0 (L * (1 - promo.discountValue / 100))) ∧
      (promo.discountType = .FIXED →
        info.discountedPrice = max 0 (L - promo.discountValue)) := by
  unfold getPricingInfo
  simp only [if_neg hc, hfind]
  rw [if_neg (not_le.mpr hslots)]
  refine ⟨_, rfl, rfl, ?_, ?_⟩
  · intro ht
    simp [ht]
  · intro ht
    have hnp : ¬ promo.discountType = .PERCENTAGE := by
      rw [ht]
      intro e
      cases e
    simp [hnp]

/-- Witness for the C8 theorem: the FIXED 250000 promo `HALF` against base
price 500000 with one of ten slots used. -/
theorem pricing_discount_formula_witness :
    jsTrim "HALF" ≠ "" ∧
    findActivePromoInWindow dbHalf 10 "HALF" = some promoHalf ∧
    (countSuccessWithPromo dbHalf promoHalf.code : Int) < promoHalf.maxUses ∧
    ∃ info : PricingInfo,
      getPricingInfo 500000 10 dbHalf (some "HALF") = .ok info ∧
      info.originalPrice = 500000 ∧
      (promoHalf.discountType = .PERCENTAGE →
        info.discountedPrice = max 0 (500000 * (1 - promoHalf.discountValue / 100))) ∧
      (promoHalf.discountType = .FIXED →
        info.discountedPrice = max 0 (500000 - promoHalf.discountValue)) :=
  ⟨by decide, by decide, by decide,
   pricing_discount_formula 500000 10 dbHalf "HALF" promoHalf
     (by decide) (by decide) (by decide)⟩

/-- Claim C9: an active, in-window promo whose SUCCESS-payment count has
reached `maxUses` makes `getPricingInfo` fail with the exhausted-promo error
(distinct from the invalid-promo error), while `getRemainingPromoSlots`
reports zero remaining slots. -/
theorem exhausted_promo_rejected (L : ℚ) (now : Int) (db : DB) (c : String)
    (promo : PromoCode)
    (hc : jsTrim c ≠ "")
    (hfind : findActivePromoInWindow db now c = some promo)
    (hfind2 : findActivePromo db c = some promo)
    (hexh : promo.maxUses ≤ (countSuccessWithPromo db c : Int)) :
    getPricingInfo L now db (some c) = .error promoExhaustedError ∧
    promoExhaustedError ≠ invalidPromoError ∧
    getRemainingPromoSlots db c = .ok ⟨0, promo.maxUses⟩ := by
  have hcode : promo.code = c := by
    have hpred := List.find?_some hfind
    simp only [decide_eq_true_eq] at hpred
    exact hpred.1
  refine ⟨?_, by decide, ?_⟩
  · unfold getPricingInfo
    simp only [if_neg hc, hfind]
    rw [if_pos (by rw [hcode]; exact hexh)]
  · unfold getRemainingPromoSlots
    rw [hfind2]
    have hz : promo.maxUses - (countSuccessWithPromo db c : Int) ≤ 0 :=
      sub_nonpos.mpr hexh
    simp only [max_eq_left hz]

/-- Witness for the C9 theorem: the one-slot promo `SOLD` already referenced
by one SUCCESS payment. -/
theorem exhausted_promo_rejected_witness :
    jsTrim "SOLD" ≠ "" ∧
    findActivePromoInWindow dbSold 10 "SOLD" = some promoSold ∧
    findActivePromo dbSold "SOLD" = some promoSold ∧
    promoSold.maxUses ≤ (countSuccessWithPromo dbSold "SOLD" : Int) ∧
    (getPricingInfo 500000 10 dbSold (some "SOLD") = .error promoExhaustedError ∧
     promoExhaustedError ≠ invalidPromoError ∧
     getRemainingPromoSlots dbSold "SOLD" = .ok ⟨0, promoSold.maxUses⟩) :=
  ⟨by decide, by decide, by decide, by decide,
   exhausted_promo_rejected 500000 10 dbSold "SOLD" promoSold
     (by decide) (by decide) (by decide) (by decide)⟩

/-- Claim C10: for every known active promo, `getRemainingPromoSlots`
answers `remainingSlots = max 0 (maxUses - countOfSuccessPayments)` and
`totalSlots = maxUses`, and the remaining-slot figure is never negative. -/
theorem remaining_slots_clamped (db : DB) (c : String) (promo : PromoCode)
    (hfind : findActivePromo db c = some promo) :
    getRemainingPromoSlots db c =
      .ok ⟨max 0 (promo.maxUses - (countSuccessWithPromo db c : Int)),
        promo.maxUses⟩ ∧
    0 ≤ max 0 (promo.maxUses - (countSuccessWithPromo db c : Int)) := by
  unfold getRemainingPromoSlots
  rw [hfind]
  exact ⟨rfl, le_max_left 0 _⟩

/-- Witness for the C10 theorem: promo `OVER` has two slots but three SUCCESS
payments reference it, and the report still clamps at zero. -/
theorem remaining_slots_clamped_witness :
    findActivePromo dbOver "OVER" = some promoOver ∧
    (getRemainingPromoSlots dbOver "OVER" =
      .ok ⟨max 0 (promoOver.maxUses - (countSuccessWithPromo dbOver "OVER" : Int)),
        promoOver.maxUses⟩ ∧
     0 ≤ max 0 (promoOver.maxUses - (countSuccessWithPromo dbOver "OVER" : Int))) :=
  ⟨by decide, remaining_slots_clamped dbOver "OVER" promoOver (by decide)⟩

end Fakturly
